import Mathlib

/-!
Shallow embedding of the raw-data-dashboard client core of the `ralph`
repository.

Source embedded here:
* the API client module (`requestJson`, `getSummary`, `getFilePreview`),
* the `App` component (`src/ui/raw-data-dashboard/src/App.jsx`): the refresh
  flow, the preview flow with its `cancelled`-flag cancellation, and the
  derived check aggregation (`passing`, `warn`, `fail`, `checkRate`).

Modelling conventions:
* JavaScript numbers appearing in the aggregation are idealised as exact
  rationals; `Math.round` (round half towards positive infinity for the
  non-negative values arising here) is the `round` function of Mathlib on `ℚ`.
* A thrown JS `Error` is `Except.error msg` carrying the message string; an
  absent or empty message is the empty string (both are falsy for `||`).
* React component state is a record; each asynchronous completion is a state
  transition function reading and writing that record.  The per-effect-run
  `cancelled` boolean closed over by the preview task is modelled by a list of
  issued preview requests (newest first), each carrying its `cancelled` flag;
  the effect cleanup sets the flag of the most recent run.
* The HTTP transport is external: a transition takes the response (or the
  whole fetch outcome) as an argument.  JSON body parsing is an external
  parameter as well.
-/

namespace Ralph

/-! ### Data model -/

/-- Scalar counts and sizes of the summary payload (`payload.summary`). -/
structure SummaryStats where
  total_files : Nat := 0
  csv_files : Nat := 0
  total_rows : Nat := 0
  total_size_bytes : Nat := 0
  scanned_at : Option String := none
deriving DecidableEq, Repr

/-- One file entry of `payload.files`; only `file_name` is read by the core. -/
structure FileRecord where
  file_name : String
  rows : Option Nat := none
  columns : Option Nat := none
  file_size_bytes : Option Nat := none
  last_modified : Option String := none
  overall_missing_ratio : Option ℚ := none
  is_csv : Bool := false
deriving DecidableEq, Repr

/-- One validation check of `payload.checks`; the aggregation reads `status`,
which is an open set of strings (anything besides pass, warn and fail is
rendered as unknown and counted by none of the three counters). -/
structure CheckRecord where
  id : String := ""
  file : String := ""
  title : String := ""
  status : String := ""
  observed : String := ""
  expected : String := ""
  details : String := ""
deriving DecidableEq, Repr

/-- The JSON body of a successful summary fetch.  A field absent from the JSON
object is `none` (the component reads the fields through `?.` and `|| []`). -/
structure SummaryPayload where
  summary : Option SummaryStats := none
  files : Option (List FileRecord) := none
  checks : Option (List CheckRecord) := none
deriving DecidableEq, Repr

/-- The JSON body of a successful preview fetch (`preview_rows`). -/
structure PreviewPayload where
  preview_rows : List (List String) := []
deriving DecidableEq, Repr

/-- What `setPreview` stores: either the fetched payload (`setPreview(next)`)
or the error wrapper built in the catch branch (`setPreview({error: msg})`,
the brace notation of JS written out as a constructor here). -/
inductive PreviewStored where
  | payload (p : PreviewPayload)
  | errorPayload (msg : String)
deriving DecidableEq, Repr

/-! ### API client -/

/-- `API_BASE = import.meta.env.VITE_API_BASE || 'http://localhost:8000'`:
the environment value is used when present and non-empty (truthy). -/
def API_BASE (viteApiBase : Option String) : String :=
  match viteApiBase with
  | some base => if base = "" then "http://localhost:8000" else base
  | none => "http://localhost:8000"

/-- An HTTP transport response: numeric status code and raw body text. -/
structure HttpResponse where
  status : Nat
  bodyText : String
deriving DecidableEq, Repr

/-- `response.ok`: the status is in the 2xx range. -/
def HttpResponse.ok (r : HttpResponse) : Bool :=
  decide (200 ≤ r.status) && decide (r.status ≤ 299)

/-- `requestJson(url)`: on a non-ok response, throw
`Request failed (<status>): <body>`; otherwise parse the body as JSON
(parsing is the external `parseBody`; parse failures propagate as the
failure of the whole request). -/
def requestJson {α : Type} (parseBody : String → Except String α)
    (response : HttpResponse) : Except String α :=
  if response.ok then parseBody response.bodyText
  else Except.error
    ("Request failed (" ++ toString response.status ++ "): " ++ response.bodyText)

/-- URL of the summary endpoint. -/
def summaryUrl (base : String) : String :=
  base ++ "/api/raw/dashboard/summary"

/-- URL of the preview endpoint; `encodeComponent` is the platform function
`encodeURIComponent`. -/
def filePreviewUrl (encodeComponent : String → String)
    (base fileName : String) (rows : Nat) : String :=
  base ++ "/api/raw/dashboard/file/" ++ encodeComponent fileName
    ++ "?rows=" ++ toString rows

/-- `getSummary()`: `requestJson` on the summary URL; `transport` is the
external HTTP layer mapping a URL to its response. -/
def getSummary (parseBody : String → Except String SummaryPayload)
    (transport : String → HttpResponse) (base : String) :
    Except String SummaryPayload :=
  requestJson parseBody (transport (summaryUrl base))

/-- `getFilePreview(fileName, rows = 20)`: `requestJson` on the preview URL
built from the percent-encoded file name and the row-limit query. -/
def getFilePreview (parseBody : String → Except String PreviewPayload)
    (encodeComponent : String → String) (transport : String → HttpResponse)
    (base fileName : String) (rows : Nat := 20) :
    Except String PreviewPayload :=
  requestJson parseBody (transport (filePreviewUrl encodeComponent base fileName rows))

/-! ### Derived aggregation -/

/-- `checks = payload?.checks || []`. -/
def checksOf (payload : Option SummaryPayload) : List CheckRecord :=
  match payload with
  | some p => p.checks.getD []
  | none => []

/-- `files = payload?.files || []`. -/
def filesOf (payload : Option SummaryPayload) : List FileRecord :=
  match payload with
  | some p => p.files.getD []
  | none => []

/-- `passing = checks.filter((c) => c.status === 'pass').length`. -/
def passing (checks : List CheckRecord) : Nat :=
  (checks.filter (fun c => c.status == "pass")).length

/-- `warn = checks.filter((c) => c.status === 'warn').length`. -/
def warn (checks : List CheckRecord) : Nat :=
  (checks.filter (fun c => c.status == "warn")).length

/-- `fail = checks.filter((c) => c.status === 'fail').length`. -/
def fail (checks : List CheckRecord) : Nat :=
  (checks.filter (fun c => c.status == "fail")).length

/-- `checkRate = checks.length === 0 ? 0 : Math.round((passing / checks.length) * 100)`,
with the arithmetic idealised over `ℚ`; `Math.round` is the half-up `round`. -/
def checkRate (checks : List CheckRecord) : ℤ :=
  if checks.length = 0 then 0
  else round (((passing checks : ℚ) / (checks.length : ℚ)) * 100)

/-! ### Synchronization core state -/

/-- The `useState` hooks of the `App` component. -/
structure AppState where
  loading : Bool := false
  error : String := ""
  payload : Option SummaryPayload := none
  selectedFile : String := ""
  preview : Option PreviewStored := none
  previewLoading : Bool := false
deriving DecidableEq, Repr

/-- One run of the preview effect that issued a fetch: the file it was issued
for, the row limit, and the `cancelled` flag checked by the completion
handler of that run. -/
structure PreviewRequest where
  id : Nat
  file : String
  rowLimit : Nat
  cancelled : Bool
deriving DecidableEq, Repr

/-- Component state plus the in-flight preview bookkeeping: `requests` holds
every issued preview fetch, newest first; `nextId` tags the next one. -/
structure Sys where
  st : AppState
  requests : List PreviewRequest := []
  nextId : Nat := 0
deriving DecidableEq, Repr

/-- The state at mount, before any effect has run. -/
def initialSys : Sys :=
  { st := {} }

/-- The effect cleanup run when `selectedFile` changes: the `cancelled` flag
of the most recent effect run is set (flags of older runs are already set). -/
def cancelCleanup : List PreviewRequest → List PreviewRequest
  | [] => []
  | r :: rs => { r with cancelled := true } :: rs

/-- The preview effect body (re-run on each `selectedFile` change): an empty
selection clears the preview and performs no fetch; a non-empty selection sets
`previewLoading` and issues `getFilePreview(selectedFile, 20)`. -/
def runPreviewEffect (sys : Sys) : Sys :=
  if sys.st.selectedFile = "" then
    { sys with st := { sys.st with preview := none } }
  else
    { sys with
      st := { sys.st with previewLoading := true }
      requests :=
        { id := sys.nextId, file := sys.st.selectedFile, rowLimit := 20
          cancelled := false } :: sys.requests
      nextId := sys.nextId + 1 }

/-- `setSelectedFile(s)` followed by the React effect handling: an update to
the current value is skipped entirely; otherwise the cleanup of the previous
run fires and the effect body re-runs. -/
def selectFile (sys : Sys) (s : String) : Sys :=
  if s = sys.st.selectedFile then sys
  else
    runPreviewEffect
      { sys with
        st := { sys.st with selectedFile := s }
        requests := cancelCleanup sys.requests }

/-- What the preview completion stores: the payload on success, the error
wrapper on failure. -/
def storeResult : Except String PreviewPayload → PreviewStored
  | .ok p => .payload p
  | .error msg => .errorPayload msg

/-- Completion of the preview fetch tagged `rid`: the handler checks the
`cancelled` flag it closed over; when the flag is set (or the request is
unknown) nothing happens, otherwise `setPreview` stores the outcome and the
`finally` branch clears `previewLoading`. -/
def completePreview (sys : Sys) (rid : Nat)
    (res : Except String PreviewPayload) : Sys :=
  match sys.requests.find? (fun r => r.id == rid) with
  | none => sys
  | some r =>
    if r.cancelled then sys
    else
      { sys with
        st := { sys.st with
                  preview := some (storeResult res)
                  previewLoading := false } }

/-! ### Refresh flow -/

/-- Entry of `refresh()`: `setLoading(true); setError('')`. -/
def refreshStart (sys : Sys) : Sys :=
  { sys with st := { sys.st with loading := true, error := "" } }

/-- `err.message || 'Failed to load dashboard'`. -/
def refreshFailureMessage (msg : String) : String :=
  if msg = "" then "Failed to load dashboard" else msg

/-- Success branch of `refresh()`: store the payload; when nothing is selected
and the file list of the payload is non-empty, select the first file (which in
turn re-runs the preview effect). -/
def refreshSuccess (sys : Sys) (data : SummaryPayload) : Sys :=
  let sys1 : Sys := { sys with st := { sys.st with payload := some data } }
  if sys.st.selectedFile = "" then
    match data.files with
    | some (f :: _) => selectFile sys1 f.file_name
    | some [] => sys1
    | none => sys1
  else sys1

/-- Completion of `refresh()`: the try and catch branches, then the `finally`
branch clearing `loading` on both paths. -/
def refreshComplete (sys : Sys) (res : Except String SummaryPayload) : Sys :=
  let sys1 :=
    match res with
    | .ok data => refreshSuccess sys data
    | .error msg =>
      { sys with st := { sys.st with error := refreshFailureMessage msg } }
  { sys1 with st := { sys1.st with loading := false } }

/-! ### Preview-flow event traces -/

/-- Events of the preview flow: a selection change and the completion of an
issued fetch. -/
inductive PreviewEv where
  | select (s : String)
  | complete (rid : Nat) (res : Except String PreviewPayload)

/-- One preview-flow step. -/
def step (sys : Sys) : PreviewEv → Sys
  | .select s => selectFile sys s
  | .complete rid res => completePreview sys rid res

/-- Events that start no new preview fetch: empty selections and fetch
completions. -/
def stalls : PreviewEv → Prop
  | .select s => s = ""
  | .complete _ _ => True

/-- A quiescent system: nothing selected and every issued request cancelled. -/
def Quiescent (sys : Sys) : Prop :=
  sys.st.selectedFile = "" ∧ ∀ q ∈ sys.requests, q.cancelled = true

/-! ### Concrete fixtures used by witnesses and counterexamples -/

/-- The check list of the spec scenario for the aggregation. -/
def scenarioChecks : List CheckRecord :=
  [{ status := "pass" }, { status := "pass" }, { status := "warn" }, { status := "fail" }]

/-- A non-empty check list in which no check passes. -/
def failOnlyChecks : List CheckRecord :=
  [{ status := "fail" }]

/-- A concrete 404 response. -/
def sampleResponse : HttpResponse := { status := 404, bodyText := "not found" }

/-- File record named `a.csv`. -/
def fileA : FileRecord := { file_name := "a.csv" }

/-- File record named `b.csv`. -/
def fileB : FileRecord := { file_name := "b.csv" }

/-- A summary payload listing `a.csv` then `b.csv`. -/
def sampleSummary : SummaryPayload := { files := some [fileA, fileB] }

/-- The in-flight preview request for `a.csv`. -/
def reqA : PreviewRequest := { id := 0, file := "a.csv", rowLimit := 20, cancelled := false }

/-- A system with `a.csv` selected and its preview fetch in flight. -/
def sysPreviewA : Sys :=
  { st := { selectedFile := "a.csv", previewLoading := true }
    requests := [reqA]
    nextId := 1 }

/-- Preview payload as fetched for `a.csv`. -/
def previewOfA : PreviewPayload := { preview_rows := [["9"]] }

/-- Preview payload as fetched for `b.csv`. -/
def previewOfB : PreviewPayload := { preview_rows := [["1", "2"]] }

/-! ### Helper lemmas -/

/-- The passing count never exceeds the number of checks. -/
theorem passing_le_length (checks : List CheckRecord) :
    passing checks ≤ checks.length :=
  List.length_filter_le _ _

/-- Integer-arithmetic characterisation of `checkRate`: half-up rounding of
`(passing / length) * 100` is `(200 * passing + length) / (2 * length)` in
natural division. -/
theorem checkRate_eq_natFormula (checks : List CheckRecord) :
    checkRate checks =
      if checks.length = 0 then 0
      else (((200 * passing checks + checks.length) / (2 * checks.length) : ℕ) : ℤ) := by
  unfold checkRate
  by_cases h : checks.length = 0
  · simp [h]
  · simp only [h, if_false]
    have hn : (0 : ℚ) < (checks.length : ℚ) := by
      exact_mod_cast Nat.pos_of_ne_zero h
    rw [round_eq]
    have hx : ((passing checks : ℚ) / (checks.length : ℚ)) * 100 + 1 / 2
        = (((200 * passing checks + checks.length : ℕ) : ℤ) : ℚ)
            / ((2 * checks.length : ℕ) : ℚ) := by
      push_cast
      field_simp
      ring
    rw [hx, Rat.floor_intCast_div_natCast]
    rw [Int.ofNat_ediv]

/-- The effect cleanup does not add or drop requests. -/
theorem cancelCleanup_length (rs : List PreviewRequest) :
    (cancelCleanup rs).length = rs.length := by
  cases rs <;> simp [cancelCleanup]

/-- When all requests but the newest are already cancelled, the cleanup leaves
every request cancelled. -/
theorem cancelCleanup_cancels (rs : List PreviewRequest)
    (h : ∀ q ∈ rs.tail, q.cancelled = true) :
    ∀ q ∈ cancelCleanup rs, q.cancelled = true := by
  cases rs with
  | nil => simp [cancelCleanup]
  | cons a l =>
    intro q hq
    rcases List.mem_cons.mp hq with hq' | hq'
    · subst hq'; rfl
    · exact h q hq'

/-- On a quiescent system, every event that starts no new fetch is a no-op. -/
theorem step_stalling_id (sys : Sys) (e : PreviewEv)
    (hq : Quiescent sys) (hst : stalls e) : step sys e = sys := by
  cases e with
  | select s =>
    have hs : s = "" := hst
    subst hs
    simp [step, selectFile, hq.1]
  | complete rid res =>
    simp only [step, completePreview]
    cases hfind : sys.requests.find? (fun q => q.id == rid) with
    | none => rfl
    | some q =>
      have hmem : q ∈ sys.requests := List.mem_of_find?_eq_some hfind
      simp [hq.2 q hmem]

/-- On a quiescent system, any trace of events that start no new fetch is a
no-op. -/
theorem foldl_stalling (evs : List PreviewEv) :
    ∀ sys : Sys, Quiescent sys → (∀ e ∈ evs, stalls e) →
      evs.foldl step sys = sys := by
  induction evs with
  | nil => intro sys _ _; rfl
  | cons e l ih =>
    intro sys hq hst
    rw [List.foldl_cons, step_stalling_id sys e hq (hst e (by simp))]
    exact ih sys hq (fun e' he' => hst e' (by simp [he']))

/-! ### Claim theorems -/

/-- Claim C1: when the selection changes from the current file to a different
non-empty file while the preview fetch for the old selection (the newest
issued request `r`) is still in flight, the completion of that superseded
fetch — successful or failed — mutates nothing, and the stored preview
reflects the outcome of the fetch for the new selection regardless of the
order in which the two in-flight completions arrive. -/
theorem preview_cancellation_discards_stale (sys : Sys) (s : String)
    (r : PreviewRequest) (rest : List PreviewRequest)
    (res resNew : Except String PreviewPayload)
    (hchanged : s ≠ sys.st.selectedFile) (hne : s ≠ "")
    (hreq : sys.requests = r :: rest) (hid : r.id ≠ sys.nextId) :
    completePreview (selectFile sys s) r.id res = selectFile sys s
    ∧ (completePreview (completePreview (selectFile sys s) r.id res)
        sys.nextId resNew).st.preview = some (storeResult resNew)
    ∧ completePreview (completePreview (selectFile sys s) sys.nextId resNew) r.id res
        = completePreview (selectFile sys s) sys.nextId resNew := by
  have h1 : selectFile sys s =
      { st := { sys.st with selectedFile := s, previewLoading := true }
        requests :=
          { id := sys.nextId, file := s, rowLimit := 20, cancelled := false }
            :: { r with cancelled := true } :: rest
        nextId := sys.nextId + 1 } := by
    simp [selectFile, if_neg hchanged, runPreviewEffect, hreq, cancelCleanup, hne]
  have hbeq1 : (sys.nextId == r.id) = false := by
    simp [Ne.symm hid]
  have hc1 : completePreview (selectFile sys s) r.id res = selectFile sys s := by
    rw [h1]
    simp [completePreview, List.find?, hbeq1]
  refine ⟨hc1, ?_, ?_⟩
  · rw [hc1, h1]
    simp [completePreview, List.find?]
  · rw [h1]
    simp [completePreview, List.find?, hbeq1]

/-- Claim C1 witness: the spec scenario, selection `a.csv` then `b.csv` while
the fetch for `a.csv` is in flight; the stale completion is the identity and
the stored preview is the one fetched for `b.csv` even though the fetch for
`a.csv` resolves first. -/
theorem preview_cancellation_discards_stale_witness :
    ("b.csv" ≠ sysPreviewA.st.selectedFile ∧ sysPreviewA.requests = reqA :: [])
    ∧ completePreview (selectFile sysPreviewA "b.csv") 0 (Except.ok previewOfA)
        = selectFile sysPreviewA "b.csv"
    ∧ (completePreview (completePreview (selectFile sysPreviewA "b.csv") 0
          (Except.ok previewOfA)) 1 (Except.ok previewOfB)).st.preview
        = some (PreviewStored.payload previewOfB)
    ∧ completePreview (completePreview (selectFile sysPreviewA "b.csv") 1
          (Except.ok previewOfB)) 0 (Except.ok previewOfA)
        = completePreview (selectFile sysPreviewA "b.csv") 1 (Except.ok previewOfB) :=
  ⟨⟨by decide, rfl⟩,
    preview_cancellation_discards_stale sysPreviewA "b.csv" reqA []
      (Except.ok previewOfA) (Except.ok previewOfB)
      (by decide) (by decide) rfl (by decide)⟩

/-- Claim C2: whenever the transport response behind `getSummary` or
`getFilePreview` is non-2xx, the operation fails with exactly the message
`Request failed (<status>): <body>`, carrying the numeric status code and the
raw body text verbatim. -/
theorem request_failed_error_format
    (parseS : String → Except String SummaryPayload)
    (parseP : String → Except String PreviewPayload)
    (encodeComponent : String → String) (transport : String → HttpResponse)
    (base fileName : String) (rows : Nat) (rs rp : HttpResponse)
    (hrs : transport (summaryUrl base) = rs)
    (hrp : transport (filePreviewUrl encodeComponent base fileName rows) = rp)
    (hs : ¬(200 ≤ rs.status ∧ rs.status ≤ 299))
    (hp : ¬(200 ≤ rp.status ∧ rp.status ≤ 299)) :
    getSummary parseS transport base
      = Except.error ("Request failed (" ++ toString rs.status ++ "): " ++ rs.bodyText)
    ∧ getFilePreview parseP encodeComponent transport base fileName rows
      = Except.error ("Request failed (" ++ toString rp.status ++ "): " ++ rp.bodyText) := by
  have hok : ∀ r : HttpResponse, ¬(200 ≤ r.status ∧ r.status ≤ 299) → r.ok = false := by
    intro r hr
    simp only [HttpResponse.ok, Bool.and_eq_false_iff, decide_eq_false_iff_not]
    omega
  constructor
  · simp [getSummary, requestJson, hrs, hok rs hs]
  · simp [getFilePreview, requestJson, hrp, hok rp hp]

/-- Claim C2 witness: a 404 with body `not found` surfaces as
`Request failed (404): not found` on both operations. -/
theorem request_failed_error_format_witness :
    getSummary (fun _ => Except.ok {}) (fun _ => sampleResponse) "http://localhost:8000"
      = Except.error "Request failed (404): not found"
    ∧ getFilePreview (fun _ => Except.ok {}) (fun s => s) (fun _ => sampleResponse)
        "http://localhost:8000" "a.csv" 20
      = Except.error "Request failed (404): not found" :=
  request_failed_error_format (fun _ => Except.ok {}) (fun _ => Except.ok {}) (fun s => s)
    (fun _ => sampleResponse) "http://localhost:8000" "a.csv" 20
    sampleResponse sampleResponse rfl rfl (by decide) (by decide)

/-- Claim C3: `passing`, `warn` and `fail` are the counts of checks whose
status is the respective string; `checkRate` is `0` on an empty list and
otherwise the half-up rounding of `passing / length * 100` (stated through
its integer form `(200 * passing + length) / (2 * length)`); on the scenario
list pass, pass, warn, fail the counts are 2, 1, 1 and the rate is 50. -/
theorem aggregation_counts_and_rate (checks : List CheckRecord) :
    passing checks = checks.countP (fun c => c.status == "pass")
    ∧ warn checks = checks.countP (fun c => c.status == "warn")
    ∧ fail checks = checks.countP (fun c => c.status == "fail")
    ∧ checkRate checks =
        (if checks.length = 0 then 0
         else (((200 * passing checks + checks.length) / (2 * checks.length) : ℕ) : ℤ))
    ∧ passing scenarioChecks = 2 ∧ warn scenarioChecks = 1 ∧ fail scenarioChecks = 1
    ∧ checkRate scenarioChecks = 50 := by
  refine ⟨?_, ?_, ?_, checkRate_eq_natFormula checks, by decide, by decide, by decide, ?_⟩
  · simp [passing, List.countP_eq_length_filter]
  · simp [warn, List.countP_eq_length_filter]
  · simp [fail, List.countP_eq_length_filter]
  · rw [checkRate_eq_natFormula]
    decide

/-- Claim C4 counterexample: a non-empty check list whose rate is `0`, so the
rate being `0` does not imply that the list is empty. -/
theorem checkRate_zero_on_nonempty_checks :
    checkRate failOnlyChecks = 0 ∧ failOnlyChecks ≠ [] := by
  refine ⟨?_, by decide⟩
  rw [checkRate_eq_natFormula]
  decide

/-- Claim C4 amended: `checkRate` always lies in `[0, 100]`, and it equals `0`
exactly when the list is empty or `200 * passing < length` (in particular it
is `0` for every non-empty list without passing checks, so the emptiness
direction of the original claim fails while the range and the
empty-implies-zero direction hold). -/
theorem checkRate_range_and_zero_characterization (checks : List CheckRecord) :
    0 ≤ checkRate checks ∧ checkRate checks ≤ 100
    ∧ (checkRate checks = 0 ↔
        checks = [] ∨ 200 * passing checks < checks.length) := by
  rw [checkRate_eq_natFormula]
  by_cases h : checks.length = 0
  · simp [h, List.length_eq_zero.mp h]
  · have hple : passing checks ≤ checks.length := passing_le_length checks
    have hn : 0 < checks.length := Nat.pos_of_ne_zero h
    simp only [h, if_false]
    refine ⟨by positivity, ?_, ?_⟩
    · have hlt : (200 * passing checks + checks.length) / (2 * checks.length) < 101 := by
        rw [Nat.div_lt_iff_lt_mul (by omega)]
        omega
      exact_mod_cast Nat.lt_succ_iff.mp hlt
    · rw [Nat.cast_eq_zero]
      rw [Nat.div_eq_zero_iff (by omega : 0 < 2 * checks.length)]
      constructor
      · intro hlt
        exact Or.inr (by omega)
      · rintro (hnil | hlt)
        · exact absurd (by simp [hnil]) h
        · omega

/-- Claim C5: when a summary fetch succeeds with no file selected and a
non-empty file list, the selection becomes the name of the first listed file;
when a selection already exists it is left unchanged. -/
theorem default_selection_on_refresh_success (sys : Sys) (data : SummaryPayload) :
    (sys.st.selectedFile = "" →
      ∀ f fs, data.files = some (f :: fs) →
        (refreshComplete sys (Except.ok data)).st.selectedFile = f.file_name)
    ∧ (sys.st.selectedFile ≠ "" →
        (refreshComplete sys (Except.ok data)).st.selectedFile = sys.st.selectedFile) := by
  constructor
  · intro h f fs hf
    simp only [refreshComplete, refreshSuccess, h, hf, if_pos]
    by_cases hname : f.file_name = ""
    · simp [selectFile, hname, h]
    · simp [selectFile, runPreviewEffect, hname, h]
  · intro h
    simp [refreshComplete, refreshSuccess, h]

/-- Claim C5 witness: the spec scenario, a fresh system receiving a summary
listing `a.csv` then `b.csv` selects `a.csv`. -/
theorem default_selection_on_refresh_success_witness :
    initialSys.st.selectedFile = ""
    ∧ sampleSummary.files = some (fileA :: [fileB])
    ∧ (refreshComplete initialSys (Except.ok sampleSummary)).st.selectedFile = "a.csv" :=
  ⟨rfl, rfl, (default_selection_on_refresh_success initialSys sampleSummary).1 rfl fileA [fileB] rfl⟩

/-- Claim C6: the three status counts sum to at most the number of checks,
with equality exactly when every status is one of pass, warn, fail. -/
theorem status_counts_partition (checks : List CheckRecord) :
    passing checks + warn checks + fail checks ≤ checks.length
    ∧ (passing checks + warn checks + fail checks = checks.length ↔
        ∀ c ∈ checks,
          c.status = "pass" ∨ c.status = "warn" ∨ c.status = "fail") := by
  induction checks with
  | nil => simp [passing, warn, fail]
  | cons c l ih =>
    obtain ⟨ih1, ih2⟩ := ih
    have e : passing (c :: l) + warn (c :: l) + fail (c :: l)
        = (if c.status = "pass" ∨ c.status = "warn" ∨ c.status = "fail" then 1 else 0)
          + (passing l + warn l + fail l) := by
      by_cases hp : c.status = "pass" <;> by_cases hw : c.status = "warn"
        <;> by_cases hf : c.status = "fail"
        <;> simp_all [passing, warn, fail, List.filter_cons]
        <;> omega
    rw [List.length_cons, e, List.forall_mem_cons]
    by_cases hrec : c.status = "pass" ∨ c.status = "warn" ∨ c.status = "fail"
    · rw [if_pos hrec]
      refine ⟨by omega, ?_⟩
      simp only [hrec, true_and]
      rw [← ih2]
      omega
    · rw [if_neg hrec]
      refine ⟨by omega, iff_of_false (by omega) ?_⟩
      rintro ⟨h1, -⟩
      exact hrec h1

/-- Claim C7: a failed refresh stores the message of the failure — falling
back to `Failed to load dashboard` on an empty message — and leaves the
previously stored summary payload untouched. -/
theorem refresh_failure_keeps_payload (sys : Sys) (msg : String) :
    (refreshComplete sys (Except.error msg)).st.payload = sys.st.payload
    ∧ (refreshComplete sys (Except.error msg)).st.error
        = (if msg = "" then "Failed to load dashboard" else msg) := by
  constructor
  · rfl
  · simp [refreshComplete, refreshFailureMessage]

/-- Claim C8: a refresh sets `loading` and clears the error message on entry,
and clears `loading` on completion of both the success and the failure path. -/
theorem refresh_loading_lifecycle (sys : Sys) (res : Except String SummaryPayload) :
    (refreshStart sys).st.loading = true
    ∧ (refreshStart sys).st.error = ""
    ∧ (refreshComplete sys res).st.loading = false :=
  ⟨rfl, rfl, rfl⟩

/-- Claim C9: when the selection changes to empty, the preview is cleared, no
preview fetch is issued, and every other piece of component state — including
`previewLoading` — is left as it was. -/
theorem empty_selection_clears_preview (sys : Sys)
    (hsel : sys.st.selectedFile ≠ "") :
    (selectFile sys "").st.preview = none
    ∧ (selectFile sys "").st.selectedFile = ""
    ∧ (selectFile sys "").requests.length = sys.requests.length
    ∧ (selectFile sys "").nextId = sys.nextId
    ∧ (selectFile sys "").st.previewLoading = sys.st.previewLoading
    ∧ (selectFile sys "").st.loading = sys.st.loading
    ∧ (selectFile sys "").st.error = sys.st.error
    ∧ (selectFile sys "").st.payload = sys.st.payload := by
  have hne : ("" : String) ≠ sys.st.selectedFile := fun h => hsel h.symm
  simp [selectFile, if_neg hne, runPreviewEffect, cancelCleanup_length]

/-- Claim C9 witness: clearing the selection of a system previewing `a.csv`. -/
theorem empty_selection_clears_preview_witness :
    sysPreviewA.st.selectedFile ≠ ""
    ∧ (selectFile sysPreviewA "").st.preview = none
    ∧ (selectFile sysPreviewA "").st.selectedFile = ""
    ∧ (selectFile sysPreviewA "").requests.length = sysPreviewA.requests.length
    ∧ (selectFile sysPreviewA "").nextId = sysPreviewA.nextId
    ∧ (selectFile sysPreviewA "").st.previewLoading = sysPreviewA.st.previewLoading
    ∧ (selectFile sysPreviewA "").st.loading = sysPreviewA.st.loading
    ∧ (selectFile sysPreviewA "").st.error = sysPreviewA.st.error
    ∧ (selectFile sysPreviewA "").st.payload = sysPreviewA.st.payload :=
  ⟨by decide, empty_selection_clears_preview sysPreviewA (by decide)⟩

/-- Claim C10: clearing a non-empty selection while its preview fetch is in
flight clears the preview but leaves `previewLoading` set, and no later
preview-flow step that starts no new fetch — the completion of the superseded
fetch included — ever resets it, because the suppressed completion mutates
nothing and the empty-selection path does not touch `previewLoading`. -/
theorem cleared_selection_previewLoading_stuck (sys : Sys)
    (hsel : sys.st.selectedFile ≠ "")
    (hload : sys.st.previewLoading = true)
    (htail : ∀ q ∈ sys.requests.tail, q.cancelled = true) :
    (selectFile sys "").st.preview = none
    ∧ (selectFile sys "").st.previewLoading = true
    ∧ ∀ evs : List PreviewEv, (∀ e ∈ evs, stalls e) →
        (evs.foldl step (selectFile sys "")).st.previewLoading = true := by
  have hne : ("" : String) ≠ sys.st.selectedFile := fun h => hsel h.symm
  have h1 : selectFile sys "" =
      { st := { sys.st with selectedFile := "", preview := none }
        requests := cancelCleanup sys.requests
        nextId := sys.nextId } := by
    simp [selectFile, if_neg hne, runPreviewEffect]
  have hq : Quiescent (selectFile sys "") := by
    rw [h1]
    exact ⟨rfl, cancelCleanup_cancels sys.requests htail⟩
  refine ⟨by rw [h1], by rw [h1]; exact hload, ?_⟩
  intro evs hst
  rw [foldl_stalling evs _ hq hst, h1]
  exact hload

/-- Claim C10 witness: after clearing the selection of the system previewing
`a.csv`, the superseded completion followed by another empty selection still
leaves `previewLoading` set. -/
theorem cleared_selection_previewLoading_stuck_witness :
    sysPreviewA.st.selectedFile ≠ ""
    ∧ sysPreviewA.st.previewLoading = true
    ∧ (List.foldl step (selectFile sysPreviewA "")
        [PreviewEv.complete 0 (Except.ok previewOfA),
         PreviewEv.select ""]).st.previewLoading = true :=
  ⟨by decide, rfl,
    (cleared_selection_previewLoading_stuck sysPreviewA (by decide) rfl
        (by simp [sysPreviewA])).2.2
      [PreviewEv.complete 0 (Except.ok previewOfA), PreviewEv.select ""]
      (by simp [stalls])⟩

end Ralph
